import Mathlib

/-!
# Verification of the clogs script-runtime lifecycle and frame-dispatch engine

A shallow embedding of `src/lib.rs` of the `clogs` crate: the `Clog`
builder/configuration object, the script loader `Clog::main_script`, the
entry-point kind check `Clog::has_function`, and the frame dispatcher
`ClogRun` with its shared invocation routine `ClogRun::call` and the
`EventHandler` methods `update` and `draw`.

The embedded GameLisp interpreter (the `glsp` crate) is an external
collaborator.  Its interface, as used by `lib.rs` and described by the
spec (sections 4.1 and 6), is embedded as:

* `Val`, a tagged dynamic value (the kind check matches the callable
  variant `Val.gfn`);
* `Env`, the interpreter's global, mutable, name-to-value environment,
  an association list queried by string key (`glspGlobal` embeds
  `glsp::global`, which returns an error when the name is unbound);
* `Interp`, a record of the interpreter operations `lib.rs` invokes
  (`glsp::parse_all`, `glsp::eval_multi`, `glsp::call`), kept abstract
  so that every theorem holds for any interpreter behaviour; forms are
  opaque tokens, and the stateful operations thread the global
  environment explicitly and return `Except`, erring exactly when the
  corresponding `glsp` operation returns `Err`;
* `Runtime::run`'s contract (scoped execution returns `Some r` when the
  thunk succeeds and `None` when the thunk signals an interpreter error)
  is inlined at its two use sites (`Clog.main_script`, `ClogRun.call`)
  as a match on the thunk's `Except` result.

`i32` fields hold stored-and-returned values only (no arithmetic is
performed on them anywhere in `lib.rs`), so they are embedded as `Int`.
A `panic!`/`expect` abort of the process is embedded as the `.error`
branch of an `Except` result.
-/

/-- A GameLisp dynamic value at the host boundary (`glsp::Val`): the kinds
`lib.rs` distinguishes are the callable variant `GFn` (here carrying an
opaque identifier into `Interp.callFn`) and everything else; non-callable
kinds such as numbers and strings are represented explicitly. -/
inductive Val where
  | num : Int → Val
  | str : String → Val
  | gfn : Nat → Val
  | nil : Val
  deriving DecidableEq, Repr

/-- Rendering of a `Val` for diagnostics (the `{}` Display formatting used
by the `eprintln!` calls in `ClogRun::call`). -/
def Val.display : Val → String
  | .num n => toString n
  | .str s => s
  | .gfn i => "#<fn " ++ toString i ++ ">"
  | .nil => "#n"

/-- The interpreter's global environment: a name-to-value table queryable
by string key (spec section 6, "a global, mutable, name-to-value
environment queryable by string key"). -/
abbrev Env : Type := List (String × Val)

/-- `glsp::global(name)`: look a name up in the global environment,
returning `Err` when the binding is absent. -/
def glspGlobal (env : Env) (name : String) : Except String Val :=
  match List.lookup name env with
  | some v => Except.ok v
  | none => Except.error ("unbound global " ++ name)

/-- The interpreter operations `lib.rs` calls on the embedded GameLisp
runtime, kept abstract: `parseAll` embeds `glsp::parse_all` (pure, forms
are opaque tokens), `evalMulti` embeds `glsp::eval_multi` (evaluates the
forms against the global environment, threading it and erring when a
form raises), and `callFn` embeds `glsp::call` on a zero-argument
callable (running the function's body against the environment, erring
when the call raises). -/
structure Interp where
  parseAll : String → Except String (List Nat)
  evalMulti : List Nat → Env → Except String Unit × Env
  callFn : Nat → Env → Except String Val × Env

/-- The `Clog` builder/configuration struct of `lib.rs` lines 27-53.  The
`runtime: Runtime` field (the owned GameLisp runtime) is embedded as the
global environment it owns; the remaining fields are stored values. -/
structure Clog where
  title : String
  runtime : Env
  width : Int
  height : Int
  sample_count : Int
  svgs : List (String × String)
  fonts : List (String × String)

/-- `Clog::new(title)`: a fresh configuration with a fresh runtime and
the `SmartDefault` field defaults of `lib.rs` (width 800, height 800,
sample count 8, empty asset lists). -/
def Clog.new (title : String) : Clog :=
  { title := title
    runtime := []
    width := 800
    height := 800
    sample_count := 8
    svgs := []
    fonts := [] }

/-- `Clog::width(self, width)`: store the width, return `self`. -/
def Clog.setWidth (c : Clog) (width : Int) : Clog :=
  { c with width := width }

/-- `Clog::height(self, height)`: store the height, return `self`. -/
def Clog.setHeight (c : Clog) (height : Int) : Clog :=
  { c with height := height }

/-- `Clog::sample_count(self, sample_count)`: store the sample count,
return `self`. -/
def Clog.setSampleCount (c : Clog) (sample_count : Int) : Clog :=
  { c with sample_count := sample_count }

/-- `Clog::load_svg(self, reference_name, svg_source)`: push the pair
onto the `svgs` list, return `self`. -/
def Clog.loadSvg (c : Clog) (reference_name : String) (svg_source : String) : Clog :=
  { c with svgs := c.svgs ++ [(reference_name, svg_source)] }

/-- `Clog::has_function(function_name)` (lib.rs lines 163-168): true
exactly when `glsp::global` resolves the name to the callable variant
`Val::GFn`; an error or any other kind of value yields false. -/
def Clog.has_function (env : Env) (function_name : String) : Bool :=
  match glspGlobal env function_name with
  | Except.ok (Val.gfn _) => true
  | _ => false

/-- `Clog::main_script(self, script)` (lib.rs lines 76-109).  The thunk
given to `Runtime::run` parses the source, evaluates all forms, then
computes the two `has_function` checks; `run` returns `None` when the
thunk errs (a parse or evaluation failure), which `ok_or` converts into
the single generic error `executing main script failed`.  A missing
update check errs naming `engine:update`; otherwise a missing render
check errs naming `engine:render`; otherwise `self` is returned (its
runtime now holding the evaluated globals). -/
def Clog.main_script (I : Interp) (c : Clog) (script : String) : Except String Clog :=
  match (match I.parseAll script with
         | Except.error e => (Except.error e, c.runtime)
         | Except.ok forms =>
           match I.evalMulti forms c.runtime with
           | (Except.error e, env') => (Except.error e, env')
           | (Except.ok _, env') =>
             (Except.ok (Clog.has_function env' "engine:update",
                         Clog.has_function env' "engine:render"), env')) with
  | (Except.error _, _) => Except.error "executing main script failed"
  | (Except.ok (has_update, has_render), env') =>
    if !has_update then
      Except.error "function 'engine:update' is missing from main script"
    else if !has_render then
      Except.error "function 'engine:render' is missing from main script"
    else
      Except.ok { c with runtime := env' }

/-- The `ClogRun` frame dispatcher (lib.rs lines 172-178): owns the
runtime (moved in from `Clog`); the `Render` collaborator is opaque to
the dispatch core and embedded as a unit. -/
structure ClogRun where
  runtime : Env
  render : Unit := ()

/-- `ClogRun::call(&self, function)` (lib.rs lines 190-216).  The result
is `Except.error msg` when the process panics via
`.expect(...)` (which fires exactly when the thunk returned `Err`, i.e.
when `glsp::call` on the resolved callable raised), and otherwise
`Except.ok (reported, diagnostics, dispatcher)`: the bool the routine
returns, the `eprintln!` diagnostics it emitted, and the dispatcher with
its runtime environment as left by the call. -/
def ClogRun.call (I : Interp) (r : ClogRun) (function : String) :
    Except String (Bool × List String × ClogRun) :=
  match glspGlobal r.runtime function with
  | Except.ok (Val.gfn f) =>
    match I.callFn f r.runtime with
    | (Except.ok _, env') => Except.ok (true, [], { r with runtime := env' })
    | (Except.error _, _) =>
      Except.error "Something unexpected went wrong with calling a GameLisp function"
  | Except.ok v =>
    Except.ok (false, ["invalid " ++ function ++ " function: " ++ v.display], r)
  | Except.error err =>
    Except.ok (false, ["error finding " ++ function ++ " function: " ++ err], r)

/-- `EventHandler::update for ClogRun` (lib.rs lines 220-222): dispatch
the `engine:update` entry point. -/
def ClogRun.update (I : Interp) (r : ClogRun) :
    Except String (Bool × List String × ClogRun) :=
  ClogRun.call I r "engine:update"

/-- `EventHandler::draw for ClogRun` (lib.rs lines 224-226): dispatch
the `engine:render` entry point. -/
def ClogRun.draw (I : Interp) (r : ClogRun) :
    Except String (Bool × List String × ClogRun) :=
  ClogRun.call I r "engine:render"

/-!
## A concrete interpreter for witnesses

`testInterp` is one concrete `Interp` used to evaluate the theorems on
closed inputs: a handful of script sources with fixed parses, forms with
fixed evaluation effects on the global environment, and callables with
fixed call behaviour (id 2 raises, id 3 unbinds `engine:render`).
-/

/-- A concrete interpreter instance for evaluating theorems on closed
inputs. -/
def testInterp : Interp :=
  { parseAll := fun s =>
      if s = "(bad" then Except.error "unexpected end of file"
      else if s = "(raise-at-top-level)" then Except.ok [10]
      else if s = "(defn-both)" then Except.ok [1]
      else if s = "(defn-update-only)" then Except.ok [2]
      else if s = "(defn-render-only)" then Except.ok [3]
      else if s = "(bind-update-to-number)" then Except.ok [4]
      else if s = "(bind-render-to-number)" then Except.ok [5]
      else Except.ok []
    evalMulti := fun forms env =>
      match forms with
      | [10] => (Except.error "boom at top level", env)
      | [1] => (Except.ok (),
          ("engine:update", Val.gfn 0) :: ("engine:render", Val.gfn 1) :: env)
      | [2] => (Except.ok (), ("engine:update", Val.gfn 0) :: env)
      | [3] => (Except.ok (), ("engine:render", Val.gfn 1) :: env)
      | [4] => (Except.ok (),
          ("engine:update", Val.num 5) :: ("engine:render", Val.gfn 1) :: env)
      | [5] => (Except.ok (),
          ("engine:update", Val.gfn 0) :: ("engine:render", Val.num 7) :: env)
      | _ => (Except.ok (), env)
    callFn := fun f env =>
      match f with
      | 2 => (Except.error "boom", env)
      | 3 => (Except.ok Val.nil, List.filter (fun p => p.1 != "engine:render") env)
      | _ => (Except.ok Val.nil, env) }

example : Clog.main_script testInterp (Clog.new "t") "(bad" =
    Except.error "executing main script failed" := by rfl

example : Clog.main_script testInterp (Clog.new "t") "(defn-both)" =
    Except.ok { Clog.new "t" with
      runtime := [("engine:update", Val.gfn 0), ("engine:render", Val.gfn 1)] } := by rfl

example : ClogRun.call testInterp { runtime := [("engine:update", Val.gfn 2)] }
    "engine:update" =
    Except.error "Something unexpected went wrong with calling a GameLisp function" := by rfl

/-!
## Claim theorems
-/

/-- C3: for all scripts that define both the update and the render entry
points as callable values (the parse and evaluation of the source
succeed and leave `engine:update` and `engine:render` bound to callable
values in the global environment), `main_script` succeeds and returns
the launch-ready configuration object (the builder value itself, its
runtime holding the evaluated globals). -/
theorem load_succeeds_with_both_entry_points (I : Interp) (c : Clog) (s : String)
    (forms : List Nat) (env' : Env)
    (hp : I.parseAll s = Except.ok forms)
    (he : I.evalMulti forms c.runtime = (Except.ok (), env'))
    (hu : Clog.has_function env' "engine:update" = true)
    (hr : Clog.has_function env' "engine:render" = true) :
    Clog.main_script I c s = Except.ok { c with runtime := env' } := by
  simp only [Clog.main_script, hp, he, hu, hr]
  rfl

theorem load_succeeds_with_both_entry_points_witness :
    Clog.main_script testInterp (Clog.new "t") "(defn-both)" =
      Except.ok { Clog.new "t" with
        runtime := [("engine:update", Val.gfn 0), ("engine:render", Val.gfn 1)] } :=
  load_succeeds_with_both_entry_points testInterp (Clog.new "t") "(defn-both)"
    [1] [("engine:update", Val.gfn 0), ("engine:render", Val.gfn 1)]
    (by rfl) (by rfl) (by rfl) (by rfl)

/-- C4: for all scripts (whose parse and evaluation succeed) missing the
update entry point, `main_script` fails with the error naming
`engine:update`, with no hypothesis on the render entry point at all —
so in particular when render is also missing, the update failure is the
one reported (the update check precedes the render check). -/
theorem load_missing_update_reported_first (I : Interp) (c : Clog) (s : String)
    (forms : List Nat) (env' : Env)
    (hp : I.parseAll s = Except.ok forms)
    (he : I.evalMulti forms c.runtime = (Except.ok (), env'))
    (hu : Clog.has_function env' "engine:update" = false) :
    Clog.main_script I c s =
      Except.error "function 'engine:update' is missing from main script" := by
  simp only [Clog.main_script, hp, he, hu]
  rfl

theorem load_missing_update_reported_first_witness :
    Clog.main_script testInterp (Clog.new "t") "(empty)" =
      Except.error "function 'engine:update' is missing from main script" :=
  load_missing_update_reported_first testInterp (Clog.new "t") "(empty)" [] []
    (by rfl) (by rfl) (by rfl)

/-- C5: for all scripts (whose parse and evaluation succeed) that leave
a callable update entry point but no callable render entry point,
`main_script` fails with the error naming `engine:render`. -/
theorem load_missing_render_reported (I : Interp) (c : Clog) (s : String)
    (forms : List Nat) (env' : Env)
    (hp : I.parseAll s = Except.ok forms)
    (he : I.evalMulti forms c.runtime = (Except.ok (), env'))
    (hu : Clog.has_function env' "engine:update" = true)
    (hr : Clog.has_function env' "engine:render" = false) :
    Clog.main_script I c s =
      Except.error "function 'engine:render' is missing from main script" := by
  simp only [Clog.main_script, hp, he, hu, hr]
  rfl

theorem load_missing_render_reported_witness :
    Clog.main_script testInterp (Clog.new "t") "(defn-update-only)" =
      Except.error "function 'engine:render' is missing from main script" :=
  load_missing_render_reported testInterp (Clog.new "t") "(defn-update-only)"
    [2] [("engine:update", Val.gfn 0)] (by rfl) (by rfl) (by rfl) (by rfl)

/-- C1 counterexample: with `engine:update` bound to a callable whose
call raises an interpreter-level error (`testInterp` function id 2
raises), `ClogRun::call` does not report a per-frame failure: the thunk
errs, `Runtime::run` yields `None`, and the `.expect` panics, so the
process terminates — refuting the claim that the routine reports failure
and the process does not terminate. -/
theorem call_on_raising_entry_point_cex :
    ClogRun.call testInterp { runtime := [("engine:update", Val.gfn 2)] }
      "engine:update" =
      Except.error "Something unexpected went wrong with calling a GameLisp function" := by
  rfl

/-- C1 amended: if an entry-point callable raises an interpreter-level
error when invoked by `ClogRun::call`, the thunk given to `Runtime::run`
fails, `run` returns `None`, and the routine panics via `.expect`,
terminating the process with the message `Something unexpected went
wrong with calling a GameLisp function`; no per-frame failure is
reported and no routine-level diagnostic carrying the interpreter's
error text is emitted (non-fatal per-frame reporting applies only to
missing or non-callable bindings). -/
theorem call_on_raising_entry_point_panics (I : Interp) (r : ClogRun)
    (function : String) (f : Nat) (e : String) (env' : Env)
    (hlook : glspGlobal r.runtime function = Except.ok (Val.gfn f))
    (hraise : I.callFn f r.runtime = (Except.error e, env')) :
    ClogRun.call I r function =
      Except.error "Something unexpected went wrong with calling a GameLisp function" := by
  simp only [ClogRun.call, hlook, hraise]

theorem call_on_raising_entry_point_panics_witness :
    ClogRun.call testInterp { runtime := [("engine:update", Val.gfn 2)] }
      "engine:update" =
      Except.error "Something unexpected went wrong with calling a GameLisp function" :=
  call_on_raising_entry_point_panics testInterp
    { runtime := [("engine:update", Val.gfn 2)] } "engine:update" 2 "boom"
    [("engine:update", Val.gfn 2)] (by rfl) (by rfl)

/-- C2 counterexample: under `testInterp`, the source `(bad` is
syntactically invalid and the source `(raise-at-top-level)` parses but
its top-level form raises `boom at top level` during evaluation; both
loads fail with the identical generic error `executing main script
failed` — refuting the claim that a parse failure, an evaluation failure
(carrying the interpreter's diagnostic) and a generic runtime failure
are distinguishable in the returned error. -/
theorem load_error_kinds_indistinguishable_cex :
    Clog.main_script testInterp (Clog.new "t") "(bad" =
        Except.error "executing main script failed" ∧
      Clog.main_script testInterp (Clog.new "t") "(raise-at-top-level)" =
        Except.error "executing main script failed" := by
  exact ⟨rfl, rfl⟩

/-- C2 amended: whenever the source is syntactically invalid, or a
top-level form raises during evaluation, `main_script` fails — but in
both cases with the same generic error `executing main script failed`:
`Runtime::run` collapses the thunk's error to `None` and `ok_or`
replaces it, so parse failures and evaluation failures are not
distinguishable from each other or from a generic runtime failure, and
the interpreter's diagnostic is not carried in the returned error. -/
theorem load_failure_collapses_to_generic_error (I : Interp) (c : Clog) (s : String)
    (hfail : (∃ e, I.parseAll s = Except.error e) ∨
      (∃ forms e env', I.parseAll s = Except.ok forms ∧
        I.evalMulti forms c.runtime = (Except.error e, env'))) :
    Clog.main_script I c s = Except.error "executing main script failed" := by
  rcases hfail with ⟨e, hp⟩ | ⟨forms, e, env', hp, he⟩
  · simp only [Clog.main_script, hp]
  · simp only [Clog.main_script, hp, he]

theorem load_failure_collapses_to_generic_error_witness :
    Clog.main_script testInterp (Clog.new "t") "(bad" =
      Except.error "executing main script failed" :=
  load_failure_collapses_to_generic_error testInterp (Clog.new "t") "(bad"
    (Or.inl ⟨"unexpected end of file", by rfl⟩)

/-- The entry-point kind check fails on a binding to any non-callable
value: `has_function` matches only the callable `Val.gfn` variant. -/
theorem has_function_false_of_noncallable (env : Env) (name : String) (v : Val)
    (hbound : List.lookup name env = some v) (hnc : ∀ f, v ≠ Val.gfn f) :
    Clog.has_function env name = false := by
  simp only [Clog.has_function, glspGlobal, hbound]
  cases v with
  | gfn f => exact absurd rfl (hnc f)
  | num n => rfl
  | str w => rfl
  | nil => rfl

/-- The entry-point kind check fails on an absent binding. -/
theorem has_function_false_of_absent (env : Env) (name : String)
    (habsent : List.lookup name env = none) :
    Clog.has_function env name = false := by
  simp only [Clog.has_function, glspGlobal, habsent]

/-- C6: the entry-point kind check passes only when the bound value is
specifically a callable value, for either entry point.  For any two
scripts whose parse and evaluation succeed, one leaving `engine:update`
bound to a non-callable value (any value other than the callable
`Val.gfn` variant — e.g. a number or a string) and the other leaving
`engine:update` entirely absent, `main_script` fails with the identical
outcome on both; and likewise for any two scripts both leaving a
callable `engine:update`, one binding `engine:render` to a non-callable
value and the other leaving `engine:render` entirely absent,
`main_script` fails with the identical outcome on both. -/
theorem noncallable_entry_point_fails_like_missing (I : Interp) (c : Clog)
    (s t s₂ t₂ : String) (fs gs fs₂ gs₂ : List Nat)
    (env1 env2 env3 env4 : Env) (v w : Val)
    (hp1 : I.parseAll s = Except.ok fs)
    (he1 : I.evalMulti fs c.runtime = (Except.ok (), env1))
    (hp2 : I.parseAll t = Except.ok gs)
    (he2 : I.evalMulti gs c.runtime = (Except.ok (), env2))
    (hbound : List.lookup "engine:update" env1 = some v)
    (hnc : ∀ f, v ≠ Val.gfn f)
    (habsent : List.lookup "engine:update" env2 = none)
    (hp3 : I.parseAll s₂ = Except.ok fs₂)
    (he3 : I.evalMulti fs₂ c.runtime = (Except.ok (), env3))
    (hp4 : I.parseAll t₂ = Except.ok gs₂)
    (he4 : I.evalMulti gs₂ c.runtime = (Except.ok (), env4))
    (hu3 : Clog.has_function env3 "engine:update" = true)
    (hu4 : Clog.has_function env4 "engine:update" = true)
    (hboundr : List.lookup "engine:render" env3 = some w)
    (hncr : ∀ f, w ≠ Val.gfn f)
    (habsentr : List.lookup "engine:render" env4 = none) :
    (Clog.main_script I c s =
        Except.error "function 'engine:update' is missing from main script" ∧
      Clog.main_script I c t = Clog.main_script I c s) ∧
    (Clog.main_script I c s₂ =
        Except.error "function 'engine:render' is missing from main script" ∧
      Clog.main_script I c t₂ = Clog.main_script I c s₂) := by
  have hu1 : Clog.has_function env1 "engine:update" = false :=
    has_function_false_of_noncallable env1 "engine:update" v hbound hnc
  have hu2 : Clog.has_function env2 "engine:update" = false :=
    has_function_false_of_absent env2 "engine:update" habsent
  have hr3 : Clog.has_function env3 "engine:render" = false :=
    has_function_false_of_noncallable env3 "engine:render" w hboundr hncr
  have hr4 : Clog.has_function env4 "engine:render" = false :=
    has_function_false_of_absent env4 "engine:render" habsentr
  have h1 : Clog.main_script I c s =
      Except.error "function 'engine:update' is missing from main script" := by
    simp only [Clog.main_script, hp1, he1, hu1]
    rfl
  have h2 : Clog.main_script I c t =
      Except.error "function 'engine:update' is missing from main script" := by
    simp only [Clog.main_script, hp2, he2, hu2]
    rfl
  have h3 : Clog.main_script I c s₂ =
      Except.error "function 'engine:render' is missing from main script" := by
    simp only [Clog.main_script, hp3, he3, hu3, hr3]
    rfl
  have h4 : Clog.main_script I c t₂ =
      Except.error "function 'engine:render' is missing from main script" := by
    simp only [Clog.main_script, hp4, he4, hu4, hr4]
    rfl
  exact ⟨⟨h1, h2.trans h1.symm⟩, ⟨h3, h4.trans h3.symm⟩⟩

theorem noncallable_entry_point_fails_like_missing_witness :
    (Clog.main_script testInterp (Clog.new "t") "(bind-update-to-number)" =
        Except.error "function 'engine:update' is missing from main script" ∧
      Clog.main_script testInterp (Clog.new "t") "(defn-render-only)" =
        Clog.main_script testInterp (Clog.new "t") "(bind-update-to-number)") ∧
    (Clog.main_script testInterp (Clog.new "t") "(bind-render-to-number)" =
        Except.error "function 'engine:render' is missing from main script" ∧
      Clog.main_script testInterp (Clog.new "t") "(defn-update-only)" =
        Clog.main_script testInterp (Clog.new "t") "(bind-render-to-number)") :=
  noncallable_entry_point_fails_like_missing testInterp (Clog.new "t")
    "(bind-update-to-number)" "(defn-render-only)"
    "(bind-render-to-number)" "(defn-update-only)"
    [4] [3] [5] [2]
    [("engine:update", Val.num 5), ("engine:render", Val.gfn 1)]
    [("engine:render", Val.gfn 1)]
    [("engine:update", Val.gfn 0), ("engine:render", Val.num 7)]
    [("engine:update", Val.gfn 0)]
    (Val.num 5) (Val.num 7)
    (by rfl) (by rfl) (by rfl) (by rfl) (by rfl)
    (by intro f h; cases h) (by rfl)
    (by rfl) (by rfl) (by rfl) (by rfl) (by rfl) (by rfl) (by rfl)
    (by intro f h; cases h) (by rfl)

/-- C7: when the dispatcher's runtime environment no longer binds
`engine:render` (the script unbound it after a successful load) but
still binds `engine:update` to a callable whose call succeeds, that
frame's `draw` emits the `error finding ...` diagnostic and reports
failure without panicking, leaving the environment untouched, while
`update` on the same environment reports success with no diagnostic;
both dispatches resolve the entry point by name in the current global
environment at call time, so nothing is cached from load time. -/
theorem draw_failure_nonfatal_update_unaffected (I : Interp) (r : ClogRun)
    (f : Nat) (v : Val) (env' : Env)
    (hrender : List.lookup "engine:render" r.runtime = none)
    (hupdate : List.lookup "engine:update" r.runtime = some (Val.gfn f))
    (hcall : I.callFn f r.runtime = (Except.ok v, env')) :
    ClogRun.draw I r =
        Except.ok (false,
          ["error finding engine:render function: unbound global engine:render"], r) ∧
      ClogRun.update I r = Except.ok (true, [], { r with runtime := env' }) := by
  constructor
  · simp only [ClogRun.draw, ClogRun.call, glspGlobal, hrender]
    rfl
  · simp only [ClogRun.update, ClogRun.call, glspGlobal, hupdate, hcall]

theorem draw_failure_nonfatal_update_unaffected_witness :
    ClogRun.draw testInterp { runtime := [("engine:update", Val.gfn 0)] } =
        Except.ok (false,
          ["error finding engine:render function: unbound global engine:render"],
          { runtime := [("engine:update", Val.gfn 0)] }) ∧
      ClogRun.update testInterp { runtime := [("engine:update", Val.gfn 0)] } =
        Except.ok (true, [], { runtime := [("engine:update", Val.gfn 0)] }) :=
  draw_failure_nonfatal_update_unaffected testInterp
    { runtime := [("engine:update", Val.gfn 0)] } 0 Val.nil
    [("engine:update", Val.gfn 0)] (by rfl) (by rfl) (by rfl)

/-- C8 counterexample: the builder chain reaches a configuration whose
width is `-1` (not positive) and one whose sample count is `-2`
(negative): the setters store any supplied `i32` without validation, so
the claimed positivity/non-negativity invariant does not hold for every
value reachable through the builder chain. -/
theorem builder_invariant_violated_cex :
    ((Clog.new "t").setWidth (-1)).width = -1 ∧
      ¬ (0 < ((Clog.new "t").setWidth (-1)).width) ∧
      ((Clog.new "t").setSampleCount (-2)).sample_count = -2 ∧
      ¬ (0 ≤ ((Clog.new "t").setSampleCount (-2)).sample_count) := by
  refine ⟨rfl, by decide, rfl, by decide⟩

/-- C8 amended: the defaults established by `Clog::new` are width 800,
height 800 and sample count 8, which are positive (respectively
non-negative); but the setters `width`, `height` and `sample_count`
store their argument verbatim with no validation, so the
positivity/non-negativity invariant holds at construction and is not
enforced along the builder chain. -/
theorem builder_defaults_and_setter_storage (t : String) (c : Clog) (w h sc : Int) :
    (Clog.new t).width = 800 ∧ (Clog.new t).height = 800 ∧
      (Clog.new t).sample_count = 8 ∧
      0 < (Clog.new t).width ∧ 0 < (Clog.new t).height ∧
      0 ≤ (Clog.new t).sample_count ∧
      (c.setWidth w).width = w ∧ (c.setHeight h).height = h ∧
      (c.setSampleCount sc).sample_count = sc := by
  refine ⟨rfl, rfl, rfl, by norm_num [Clog.new], by norm_num [Clog.new],
    by norm_num [Clog.new], rfl, rfl, rfl⟩

/-- C9: `main_script` is deterministic in its source input: two
configurations whose runtimes hold the same global environment (in
particular, two freshly constructed ones, whose runtimes are both
fresh) given the same source yield the same success/failure outcome. -/
theorem load_outcome_deterministic (I : Interp) (c₁ c₂ : Clog) (s : String)
    (hrt : c₁.runtime = c₂.runtime) :
    (Clog.main_script I c₁ s).isOk = (Clog.main_script I c₂ s).isOk := by
  cases hp : I.parseAll s with
  | error e => simp only [Clog.main_script, hp]
  | ok forms =>
    rcases he : I.evalMulti forms c₂.runtime with ⟨res, env'⟩
    have he1 : I.evalMulti forms c₁.runtime = (res, env') := by rw [hrt]; exact he
    cases res with
    | error e => simp only [Clog.main_script, hp, he, he1]
    | ok u =>
      simp only [Clog.main_script, hp, he, he1]
      cases hu : Clog.has_function env' "engine:update" <;>
        cases hr : Clog.has_function env' "engine:render" <;>
        simp only [hu, hr, Bool.not_true, Bool.not_false, if_true, if_false] <;> rfl

theorem load_outcome_deterministic_witness :
    (Clog.main_script testInterp (Clog.new "a") "(defn-both)").isOk =
      (Clog.main_script testInterp (Clog.new "b") "(defn-both)").isOk :=
  load_outcome_deterministic testInterp (Clog.new "a") (Clog.new "b")
    "(defn-both)" (by rfl)

/-- C10: each builder setter modifies only its own field — `width`,
`height` and `sample_count` store their argument and leave every other
field (title, runtime, the other dimensions, both asset lists)
unchanged, and `load_svg` appends exactly the one supplied pair at the
end of the `svgs` list (unconditionally, so duplicate reference names
are accepted) while leaving every other field unchanged. -/
theorem setters_frame_conditions (c : Clog) (w h sc : Int) (rn ss : String) :
    ((c.setWidth w).width = w ∧ (c.setWidth w).title = c.title ∧
      (c.setWidth w).runtime = c.runtime ∧ (c.setWidth w).height = c.height ∧
      (c.setWidth w).sample_count = c.sample_count ∧
      (c.setWidth w).svgs = c.svgs ∧ (c.setWidth w).fonts = c.fonts) ∧
    ((c.setHeight h).height = h ∧ (c.setHeight h).title = c.title ∧
      (c.setHeight h).runtime = c.runtime ∧ (c.setHeight h).width = c.width ∧
      (c.setHeight h).sample_count = c.sample_count ∧
      (c.setHeight h).svgs = c.svgs ∧ (c.setHeight h).fonts = c.fonts) ∧
    ((c.setSampleCount sc).sample_count = sc ∧
      (c.setSampleCount sc).title = c.title ∧
      (c.setSampleCount sc).runtime = c.runtime ∧
      (c.setSampleCount sc).width = c.width ∧
      (c.setSampleCount sc).height = c.height ∧
      (c.setSampleCount sc).svgs = c.svgs ∧
      (c.setSampleCount sc).fonts = c.fonts) ∧
    ((c.loadSvg rn ss).svgs = c.svgs ++ [(rn, ss)] ∧
      (c.loadSvg rn ss).title = c.title ∧
      (c.loadSvg rn ss).runtime = c.runtime ∧
      (c.loadSvg rn ss).width = c.width ∧
      (c.loadSvg rn ss).height = c.height ∧
      (c.loadSvg rn ss).sample_count = c.sample_count ∧
      (c.loadSvg rn ss).fonts = c.fonts) := by
  exact ⟨⟨rfl, rfl, rfl, rfl, rfl, rfl, rfl⟩,
    ⟨rfl, rfl, rfl, rfl, rfl, rfl, rfl⟩,
    ⟨rfl, rfl, rfl, rfl, rfl, rfl, rfl⟩,
    ⟨rfl, rfl, rfl, rfl, rfl, rfl, rfl⟩⟩
